import Mathlib

/-!
Shallow embedding of `src/app.py` (a Streamlit ARIMA stock-forecast
dashboard).  The script, per button press, fetches a daily OHLCV frame,
short-circuits on emptiness, runs an ADF stationarity check, fits an
ARIMA(5,0,0) model on the Close column, produces a multi-step forecast,
builds business-day forecast dates, and renders a chart and a table.

External library calls (statsmodels `adfuller`, `ARIMA(...).fit()`) are
embedded as explicit function parameters of the pipeline (fallible, via
`Except`), so that theorems quantify over their behaviour; the library's
multi-step AR prediction and pandas business-day `date_range` are embedded
as concrete Lean functions.  Dates are modelled as natural numbers with
epoch on a Monday, so `d % 7 < 5` means weekday.
-/

namespace Arima

/-- A pandas float value: `none` models NaN (a missing value). -/
abbrev PVal := Option ℚ

/-- `series.dropna()` on a pandas series of floats: remove missing values. -/
def dropna (xs : List PVal) : List ℚ := xs.filterMap id

/-- Message returned by `check_stationarity` when the p-value is below 0.05
(source line 56). -/
def stationaryMsg : String :=
  "✔️ The series is *Stationary* (ADF p-value < 0.05)"

/-- Message returned by `check_stationarity` otherwise (source line 58). -/
def notStationaryMsg : String :=
  "❌ The series is *Not Stationary* (ADF p-value >= 0.05)"

/-- `check_stationarity(series)` from source lines 52-58.  The external
`adfuller` call is a parameter `adf` returning the test's p-value or
failing; the source has no handler, so a failure propagates (`Except`
bind).  The source applies `adfuller` to `series.dropna()` and compares
the p-value `result[1]` against 0.05. -/
def check_stationarity (adf : List ℚ → Except String ℚ)
    (series : List PVal) : Except String String :=
  match adf (dropna series) with
  | Except.error e => Except.error e
  | Except.ok p =>
      if p < 5/100 then Except.ok stationaryMsg
      else Except.ok notStationaryMsg

/-- Weekday test: with epoch on a Monday, residues 0-4 are Mon-Fri and
5, 6 are Saturday and Sunday. -/
def isBusinessDay (n : ℕ) : Bool := n % 7 < 5

/-- Roll a date forward to the first business day on or after it
(pandas `freq="B"` anchor semantics). -/
def rollForwardB (n : ℕ) : ℕ :=
  if n % 7 < 5 then n else n + (7 - n % 7)

/-- The first business day strictly after `n`. -/
def nextBusinessDay (n : ℕ) : ℕ := rollForwardB (n + 1)

/-- Business-day sequence of length `k` starting at `b` (assumed already
rolled forward), each subsequent entry the next business day. -/
def bdateFrom (b : ℕ) : ℕ → List ℕ
  | 0 => []
  | k + 1 => b :: bdateFrom (nextBusinessDay b) k

/-- `pd.date_range(start=s, periods=p, freq="B")`: `p` business days,
beginning at the first business day on or after `s`. -/
def date_range_B (start periods : ℕ) : List ℕ :=
  bdateFrom (rollForwardB start) periods

/-- Forecast dates from source lines 89-93:
`pd.date_range(start=last, periods=h+1, freq="B")[1:]`. -/
def forecast_dates (last h : ℕ) : List ℕ :=
  (date_range_B last (h + 1)).drop 1

/-- The (unfitted) ARIMA model object: `ARIMA(endog, order=...)`. -/
structure ARIMAModel where
  endog : List PVal
  order : ℕ × ℕ × ℕ
  deriving DecidableEq

/-- `ARIMA(endog, order=order)` constructor from statsmodels. -/
def ARIMA (endog : List PVal) (order : ℕ × ℕ × ℕ) : ARIMAModel :=
  ⟨endog, order⟩

/-- The fitted model returned by `model.fit()`: an intercept, the AR
coefficients, and the trailing in-sample values (most recent first) that
seed multi-step prediction. -/
structure FitResult where
  const : ℚ
  phi : List ℚ
  recent : List ℚ
  deriving DecidableEq

/-- One step of AR prediction: intercept plus the dot product of the AR
coefficients with the most recent values. -/
def arNext (c : ℚ) (phi recent : List ℚ) : ℚ :=
  c + (List.zip phi recent).foldr (fun pr acc => pr.1 * pr.2 + acc) 0

/-- Standard multi-step AR prediction: each predicted value is fed back
as the newest observation (lag window of 5, matching AR(5,0,0)). -/
def forecastList (c : ℚ) (phi : List ℚ) (recent : List ℚ) : ℕ → List ℚ
  | 0 => []
  | k + 1 =>
      let x := arNext c phi recent
      x :: forecastList c phi (x :: recent.take 4) k

/-- `model_fit.forecast(steps=n)` from statsmodels: `n` sequential point
forecasts via the model's standard multi-step prediction. -/
def FitResult.forecast (mf : FitResult) (steps : ℕ) : List ℚ :=
  forecastList mf.const mf.phi mf.recent steps

/-- The fetched dataframe after `reset_index()`: a Date column plus the
OHLCV columns (floats that may be NaN). -/
structure DataFrame where
  dates : List ℕ
  openCol : List PVal
  highCol : List PVal
  lowCol : List PVal
  close : List PVal
  volume : List PVal
  deriving DecidableEq

/-- `df.empty`: the frame has no rows. -/
def DataFrame.isEmptyDF (df : DataFrame) : Bool := df.dates.isEmpty

/-- A user-visible output emitted by the script (a Streamlit render
call): `st.error`, `st.subheader`, `st.info`, `st.plotly_chart` (with
its two traces and title), `st.dataframe`. -/
inductive Output where
  | errorMsg (s : String)
  | subheader (s : String)
  | info (s : String)
  | chart (title : String) (histDates : List ℕ) (histClose : List PVal)
      (fDates : List ℕ) (fVals : List ℚ)
  | table (df : DataFrame)
  deriving DecidableEq

/-- A call into one of the two statistical library entry points, recorded
with its arguments. -/
inductive Call where
  | adfCall (series : List ℚ)
  | fitCall (endog : List PVal) (order : ℕ × ℕ × ℕ)
  deriving DecidableEq

deriving instance DecidableEq for Except

/-- Result of one button-triggered run: the outputs rendered (in order),
the statistical-library calls made (in order), and the outcome — `ok` for
a normal end of script, `error` for an uncaught exception that aborts
the run. -/
structure RunResult where
  outputs : List Output
  calls : List Call
  outcome : Except String Unit
  deriving DecidableEq

/-- The error text of source line 71. -/
def noDataMsg : String := "⚠️ No data found. Check stock symbol."

/-- The subheader of source line 77. -/
def stationarityHeader : String := "📌 Stationarity Test (ADF)"

/-- The subheader of source line 148. -/
def dataUsedHeader : String := "📄 Data Used"

/-- The chart title of source line 126 for a given ticker. -/
def chartTitle (ticker : String) : String :=
  ticker ++ " — Actual vs Forecasted Prices"

/-- The body of the button branch, source lines 63-149.  `adf` and
`fitter` are the external statistical calls; `df` is the frame returned
by `yf.download` (already reset).  Mirrors the source order exactly:
empty check; stationarity subheader; `st.info(check_stationarity(...))`
(an exception in the argument aborts before `st.info` renders); ARIMA
construction with order (5,0,0) on `df["Close"]` and fit (an exception
aborts the run, keeping outputs already rendered); forecast; forecast
dates; chart; data subheader; table. -/
def run (adf : List ℚ → Except String ℚ)
    (fitter : ARIMAModel → Except String FitResult)
    (ticker : String) (df : DataFrame) (forecast_days : ℕ) : RunResult :=
  if df.isEmptyDF then
    { outputs := [Output.errorMsg noDataMsg], calls := [], outcome := Except.ok () }
  else
    match check_stationarity adf df.close with
    | Except.error e =>
        { outputs := [Output.subheader stationarityHeader]
          calls := [Call.adfCall (dropna df.close)]
          outcome := Except.error e }
    | Except.ok verdict =>
        match fitter (ARIMA df.close (5, 0, 0)) with
        | Except.error e =>
            { outputs := [Output.subheader stationarityHeader, Output.info verdict]
              calls := [Call.adfCall (dropna df.close),
                        Call.fitCall (ARIMA df.close (5, 0, 0)).endog
                          (ARIMA df.close (5, 0, 0)).order]
              outcome := Except.error e }
        | Except.ok mf =>
            { outputs := [Output.subheader stationarityHeader, Output.info verdict,
                Output.chart (chartTitle ticker) df.dates df.close
                  (forecast_dates (df.dates.getLastD 0) forecast_days)
                  (mf.forecast forecast_days),
                Output.subheader dataUsedHeader,
                Output.table df]
              calls := [Call.adfCall (dropna df.close),
                        Call.fitCall (ARIMA df.close (5, 0, 0)).endog
                          (ARIMA df.close (5, 0, 0)).order]
              outcome := Except.ok () }

/-- The forecasting step in isolation (source lines 82-86): build the
model on the close series with order (5,0,0), fit, and forecast. -/
def forecastStep (fitter : ARIMAModel → Except String FitResult)
    (closes : List PVal) (steps : ℕ) : Except String (List ℚ) :=
  match fitter (ARIMA closes (5, 0, 0)) with
  | Except.error e => Except.error e
  | Except.ok mf => Except.ok (mf.forecast steps)

/-- The forecast values shown in the first chart output of a run, if
any chart was rendered. -/
def chartForecastVals (outs : List Output) : Option (List ℚ) :=
  outs.findSome? fun o =>
    match o with
    | Output.chart _ _ _ _ fv => some fv
    | _ => none

/-- Number of model-fit calls in a call trace. -/
def countFitCalls (cs : List Call) : ℕ :=
  cs.countP fun c =>
    match c with
    | Call.fitCall _ _ => true
    | _ => false

/-- Whether an output is the forecast chart. -/
def isChart : Output → Bool
  | Output.chart _ _ _ _ _ => true
  | _ => false

/-- Whether an output is the historical-data table. -/
def isTable : Output → Bool
  | Output.table _ => true
  | _ => false

/-! ### Concrete instances used by witnesses and counterexamples -/

/-- An `adfuller` stand-in that always succeeds with p-value 0. -/
def adfOkZero : List ℚ → Except String ℚ := fun _ => Except.ok 0

/-- An obscure numerical-library exception text. -/
def svdErr : String := "LinAlgError: SVD did not converge"

/-- An `adfuller` stand-in that raises on series shorter than its minimum
lag requirement. -/
def adfShortFail : List ℚ → Except String ℚ := fun xs =>
  if xs.length < 4 then Except.error svdErr else Except.ok 0

/-- A fitter stand-in that always converges to a fixed AR(5) model. -/
def fitOkConst : ARIMAModel → Except String FitResult :=
  fun _ => Except.ok ⟨1, [1, 0, 0, 0, 0], [100, 100, 100, 100, 100]⟩

/-- An optimizer exception text for a failed fit. -/
def fitErr : String := "LinAlgError: Schur decomposition solver error"

/-- A fitter stand-in that always fails. -/
def fitFail : ARIMAModel → Except String FitResult :=
  fun _ => Except.error fitErr

/-- The empty fetched frame (`df.empty` true). -/
def dfEmpty : DataFrame := ⟨[], [], [], [], [], []⟩

/-- A two-row fetched frame: dates Monday and Tuesday, closes 100, 101. -/
def dfTwo : DataFrame := ⟨[0, 1], [], [], [], [some 100, some 101], []⟩

/-- A frame with the same close column as `dfTwo` but different dates and
a volume column. -/
def dfTwoAlt : DataFrame :=
  ⟨[3, 9], [some 1, some 2], [], [], [some 100, some 101], [some 5, some 6]⟩

/-! ### Helper lemmas -/

theorem check_stationarity_of_ok (adf : List ℚ → Except String ℚ)
    (s : List PVal) (p : ℚ) (hp : adf (dropna s) = Except.ok p) :
    check_stationarity adf s =
      Except.ok (if p < 5/100 then stationaryMsg else notStationaryMsg) := by
  simp only [check_stationarity, hp]
  split <;> simp_all

theorem check_stationarity_of_error (adf : List ℚ → Except String ℚ)
    (s : List PVal) (e : String) (hp : adf (dropna s) = Except.error e) :
    check_stationarity adf s = Except.error e := by
  simp only [check_stationarity, hp]

theorem run_empty_eq (adf : List ℚ → Except String ℚ)
    (fitter : ARIMAModel → Except String FitResult)
    (ticker : String) (df : DataFrame) (n : ℕ)
    (h : df.isEmptyDF = true) :
    run adf fitter ticker df n =
      { outputs := [Output.errorMsg noDataMsg], calls := [],
        outcome := Except.ok () } := by
  simp [run, h]

theorem run_adf_error_eq (adf : List ℚ → Except String ℚ)
    (fitter : ARIMAModel → Except String FitResult)
    (ticker : String) (df : DataFrame) (n : ℕ) (e : String)
    (hne : df.isEmptyDF = false)
    (ha : adf (dropna df.close) = Except.error e) :
    run adf fitter ticker df n =
      { outputs := [Output.subheader stationarityHeader]
        calls := [Call.adfCall (dropna df.close)]
        outcome := Except.error e } := by
  simp [run, hne, check_stationarity_of_error adf df.close e ha]

theorem run_fit_error_eq (adf : List ℚ → Except String ℚ)
    (fitter : ARIMAModel → Except String FitResult)
    (ticker : String) (df : DataFrame) (n : ℕ) (p : ℚ) (e : String)
    (hne : df.isEmptyDF = false)
    (ha : adf (dropna df.close) = Except.ok p)
    (hf : fitter (ARIMA df.close (5, 0, 0)) = Except.error e) :
    run adf fitter ticker df n =
      { outputs := [Output.subheader stationarityHeader,
          Output.info (if p < 5/100 then stationaryMsg else notStationaryMsg)]
        calls := [Call.adfCall (dropna df.close),
          Call.fitCall df.close (5, 0, 0)]
        outcome := Except.error e } := by
  simp only [ARIMA] at hf
  simp [run, hne, check_stationarity_of_ok adf df.close p ha, hf, ARIMA,
    -Prod.mk_zero_zero]

theorem run_ok_eq (adf : List ℚ → Except String ℚ)
    (fitter : ARIMAModel → Except String FitResult)
    (ticker : String) (df : DataFrame) (n : ℕ) (p : ℚ) (mf : FitResult)
    (hne : df.isEmptyDF = false)
    (ha : adf (dropna df.close) = Except.ok p)
    (hf : fitter (ARIMA df.close (5, 0, 0)) = Except.ok mf) :
    run adf fitter ticker df n =
      { outputs := [Output.subheader stationarityHeader,
          Output.info (if p < 5/100 then stationaryMsg else notStationaryMsg),
          Output.chart (chartTitle ticker) df.dates df.close
            (forecast_dates (df.dates.getLastD 0) n) (mf.forecast n),
          Output.subheader dataUsedHeader,
          Output.table df]
        calls := [Call.adfCall (dropna df.close),
          Call.fitCall df.close (5, 0, 0)]
        outcome := Except.ok () } := by
  simp only [ARIMA] at hf
  simp [run, hne, check_stationarity_of_ok adf df.close p ha, hf, ARIMA,
    -Prod.mk_zero_zero]

theorem bdateFrom_length (k : ℕ) : ∀ b, (bdateFrom b k).length = k := by
  induction k with
  | zero => intro b; rfl
  | succ k ih => intro b; simp [bdateFrom, ih]

theorem rollForwardB_ge (n : ℕ) : n ≤ rollForwardB n := by
  simp only [rollForwardB]
  split <;> omega

theorem rollForwardB_business (n : ℕ) :
    isBusinessDay (rollForwardB n) = true := by
  simp only [isBusinessDay, rollForwardB, decide_eq_true_eq]
  split <;> omega

theorem nextBusinessDay_gt (n : ℕ) : n < nextBusinessDay n := by
  have h := rollForwardB_ge (n + 1)
  simp only [nextBusinessDay]
  omega

theorem bdateFrom_ge (k : ℕ) :
    ∀ b, ∀ d ∈ bdateFrom b k, b ≤ d := by
  induction k with
  | zero => intro b d hd; simp [bdateFrom] at hd
  | succ k ih =>
      intro b d hd
      simp only [bdateFrom, List.mem_cons] at hd
      rcases hd with rfl | hd
      · exact le_refl d
      · exact le_trans (le_of_lt (nextBusinessDay_gt b)) (ih _ d hd)

theorem bdateFrom_business (k : ℕ) :
    ∀ b, isBusinessDay b = true →
      ∀ d ∈ bdateFrom b k, isBusinessDay d = true := by
  induction k with
  | zero => intro b _ d hd; simp [bdateFrom] at hd
  | succ k ih =>
      intro b hb d hd
      simp only [bdateFrom, List.mem_cons] at hd
      rcases hd with rfl | hd
      · exact hb
      · exact ih _ (rollForwardB_business (b + 1)) d hd

theorem bdateFrom_chain (k : ℕ) :
    ∀ b, List.Chain' (fun x y => x < y) (bdateFrom b k) := by
  induction k with
  | zero => intro b; simp [bdateFrom]
  | succ k ih =>
      intro b
      simp only [bdateFrom]
      rw [List.chain'_cons']
      refine ⟨?_, ih (nextBusinessDay b)⟩
      intro y hy
      cases k with
      | zero => simp [bdateFrom] at hy
      | succ k' =>
          simp only [bdateFrom, List.head?_cons, Option.mem_def,
            Option.some.injEq] at hy
          subst hy
          exact nextBusinessDay_gt b

theorem forecast_dates_eq (last n : ℕ) :
    forecast_dates last n =
      bdateFrom (nextBusinessDay (rollForwardB last)) n := rfl

theorem forecastList_length (k : ℕ) :
    ∀ c phi recent, (forecastList c phi recent k).length = k := by
  induction k with
  | zero => intro c phi recent; rfl
  | succ k ih => intro c phi recent; simp [forecastList, ih]

theorem isEmpty_iff_length_zero {α : Type _} (l : List α) :
    l.isEmpty = true ↔ l.length = 0 := by
  cases l <;> simp

theorem chartForecastVals_ok_outputs (t : String) (hd : List ℕ)
    (hc : List PVal) (fd : List ℕ) (fv : List ℚ) (v : String)
    (df : DataFrame) :
    chartForecastVals [Output.subheader stationarityHeader, Output.info v,
      Output.chart t hd hc fd fv, Output.subheader dataUsedHeader,
      Output.table df] = some fv := rfl

/-! ### The claims -/

/-- C1: If the fetched price series is empty, the run terminates with a
single user-visible error message and performs no stationarity check, no
model fit, no forecast, and no chart/table rendering; the
stationarity/forecast/render steps execute only when the fetched series
is non-empty (the stationarity call is made in every non-empty run). -/
theorem c1_empty_data_short_circuit
    (adf : List ℚ → Except String ℚ)
    (fitter : ARIMAModel → Except String FitResult)
    (ticker : String) (df : DataFrame) (n : ℕ) :
    (df.isEmptyDF = true →
      run adf fitter ticker df n =
        { outputs := [Output.errorMsg noDataMsg], calls := [],
          outcome := Except.ok () }) ∧
    (df.isEmptyDF = false →
      Call.adfCall (dropna df.close) ∈ (run adf fitter ticker df n).calls) := by
  constructor
  · intro h
    exact run_empty_eq adf fitter ticker df n h
  · intro hne
    cases ha : adf (dropna df.close) with
    | error e =>
        rw [run_adf_error_eq adf fitter ticker df n e hne ha]
        simp
    | ok p =>
        cases hf : fitter (ARIMA df.close (5, 0, 0)) with
        | error e =>
            rw [run_fit_error_eq adf fitter ticker df n p e hne ha hf]
            simp
        | ok mf =>
            rw [run_ok_eq adf fitter ticker df n p mf hne ha hf]
            simp

theorem c1_witness :
    run adfOkZero fitOkConst "AAPL" dfEmpty 10 =
      { outputs := [Output.errorMsg noDataMsg], calls := [],
        outcome := Except.ok () } :=
  (c1_empty_data_short_circuit adfOkZero fitOkConst "AAPL" dfEmpty 10).1 rfl

/-- C2: For every horizon in [5,60] and every historical close series on
which the model fit succeeds (an arbitrary fit result `mf`), the forecast
result has exactly `horizon` entries, and the forecast date sequence
constructed for it has exactly `horizon` dates. -/
theorem c2_forecast_length (mf : FitResult) (last n : ℕ)
    (_h5 : 5 ≤ n) (_h60 : n ≤ 60) :
    (mf.forecast n).length = n ∧ (forecast_dates last n).length = n := by
  refine ⟨forecastList_length n mf.const mf.phi mf.recent, ?_⟩
  rw [forecast_dates_eq]
  exact bdateFrom_length n _

theorem c2_witness :
    (FitResult.forecast ⟨1, [1, 0, 0, 0, 0], [100, 100, 100, 100, 100]⟩
      10).length = 10 ∧
    (forecast_dates 4 10).length = 10 :=
  c2_forecast_length ⟨1, [1, 0, 0, 0, 0], [100, 100, 100, 100, 100]⟩ 4 10
    (by norm_num) (by norm_num)

/-- C3: For every last historical date and horizon, the generated
forecast dates are strictly increasing, every forecast date is strictly
after the last historical date, and every forecast date is a weekday
(Monday-Friday, never Saturday or Sunday). -/
theorem c3_forecast_dates_sound (last n : ℕ) :
    List.Chain' (fun x y => x < y) (forecast_dates last n) ∧
    ∀ d ∈ forecast_dates last n, last < d ∧ isBusinessDay d = true := by
  rw [forecast_dates_eq]
  refine ⟨bdateFrom_chain n _, ?_⟩
  intro d hd
  have h1 : nextBusinessDay (rollForwardB last) ≤ d := bdateFrom_ge n _ d hd
  have h2 := rollForwardB_ge last
  have h3 := nextBusinessDay_gt (rollForwardB last)
  refine ⟨by omega, ?_⟩
  exact bdateFrom_business n _ (rollForwardB_business (rollForwardB last + 1))
    d hd

theorem c3_witness : (4 : ℕ) < 7 ∧ isBusinessDay 7 = true :=
  (c3_forecast_dates_sound 4 5).2 7 (by decide)

/-- C4: The stationarity checker drops missing values from the input
series before running the ADF test (its result depends on the series only
through `dropna`, and the p-value is obtained on the dropna'd series),
and classifies the series as stationary exactly when the p-value is
strictly below 0.05, non-stationary otherwise (including at exactly
0.05). -/
theorem c4_stationarity_threshold (adf : List ℚ → Except String ℚ)
    (s : List PVal) (p : ℚ) (hp : adf (dropna s) = Except.ok p) :
    check_stationarity adf s =
      Except.ok (if p < 5/100 then stationaryMsg else notStationaryMsg) ∧
    (5/100 ≤ p → check_stationarity adf s = Except.ok notStationaryMsg) ∧
    (∀ s2 : List PVal, dropna s2 = dropna s →
      check_stationarity adf s2 = check_stationarity adf s) := by
  have h := check_stationarity_of_ok adf s p hp
  refine ⟨h, fun hle => ?_, fun s2 h2 => ?_⟩
  · rw [h, if_neg (not_lt.mpr hle)]
  · simp [check_stationarity, h2]

theorem c4_witness :
    check_stationarity adfOkZero [some 1, none] =
      Except.ok (if (0 : ℚ) < 5/100 then stationaryMsg
        else notStationaryMsg) :=
  (c4_stationarity_threshold adfOkZero [some 1, none] 0 rfl).1

/-- C5 counterexample: on a two-row series, an `adfuller` stand-in that
raises an obscure numerical exception for short series makes the run
abort with exactly that exception; the outputs contain no error message
at all (only the already-rendered subheader), so no descriptive
user-visible error is produced and the exception propagates unhandled,
contrary to the claim. -/
theorem c5_counterexample :
    run adfShortFail fitOkConst "TEST" dfTwo 10 =
      { outputs := [Output.subheader stationarityHeader]
        calls := [Call.adfCall [100, 101]]
        outcome := Except.error svdErr } ∧
    ((run adfShortFail fitOkConst "TEST" dfTwo 10).outputs.all
      fun o =>
        match o with
        | Output.errorMsg _ => false
        | _ => true) = true := by
  decide

/-- C5 amended: when the ADF test fails on a too-short or degenerate
series, `check_stationarity` has no handler, so the exception propagates
unchanged and aborts the run; the only output rendered is the
stationarity subheader and no user-visible error message is produced. -/
theorem c5_adf_error_propagates (adf : List ℚ → Except String ℚ)
    (fitter : ARIMAModel → Except String FitResult)
    (ticker : String) (df : DataFrame) (n : ℕ) (e : String)
    (hne : df.isEmptyDF = false)
    (ha : adf (dropna df.close) = Except.error e) :
    (run adf fitter ticker df n).outcome = Except.error e ∧
    ∀ o ∈ (run adf fitter ticker df n).outputs,
      o = Output.subheader stationarityHeader := by
  rw [run_adf_error_eq adf fitter ticker df n e hne ha]
  refine ⟨rfl, fun o ho => ?_⟩
  simpa using ho

theorem c5_amended_witness :
    (run adfShortFail fitOkConst "T2" dfTwo 7).outcome =
      Except.error svdErr ∧
    ∀ o ∈ (run adfShortFail fitOkConst "T2" dfTwo 7).outputs,
      o = Output.subheader stationarityHeader :=
  c5_adf_error_propagates adfShortFail fitOkConst "T2" dfTwo 7 svdErr rfl
    (by decide)

/-- C6: When fitting the autoregressive model fails, the failure is
surfaced (the exception becomes the run's outcome, which the framework
shows the user); it is neither silently swallowed (the outcome is exactly
that error) nor automatically retried (the call trace holds exactly one
fit call). -/
theorem c6_fit_failure_surfaced (adf : List ℚ → Except String ℚ)
    (fitter : ARIMAModel → Except String FitResult)
    (ticker : String) (df : DataFrame) (n : ℕ) (p : ℚ) (e : String)
    (hne : df.isEmptyDF = false)
    (ha : adf (dropna df.close) = Except.ok p)
    (hf : fitter (ARIMA df.close (5, 0, 0)) = Except.error e) :
    (run adf fitter ticker df n).outcome = Except.error e ∧
    countFitCalls (run adf fitter ticker df n).calls = 1 := by
  rw [run_fit_error_eq adf fitter ticker df n p e hne ha hf]
  exact ⟨rfl, rfl⟩

theorem c6_witness :
    (run adfOkZero fitFail "TEST" dfTwo 10).outcome =
      Except.error fitErr ∧
    countFitCalls (run adfOkZero fitFail "TEST" dfTwo 10).calls = 1 :=
  c6_fit_failure_surfaced adfOkZero fitFail "TEST" dfTwo 10 0 fitErr rfl
    rfl rfl

/-- C7: For every fixed historical close series and fixed horizon, two
runs of the forecasting step with identical inputs produce identical
forecast values: the step from series and horizon to forecast values is
a deterministic function (given the deterministic embedded fitter). -/
theorem c7_forecast_deterministic
    (fitter : ARIMAModel → Except String FitResult)
    (closes : List PVal) (n : ℕ) (o1 o2 : Except String (List ℚ))
    (h1 : forecastStep fitter closes n = o1)
    (h2 : forecastStep fitter closes n = o2) : o1 = o2 := by
  rw [← h1, ← h2]

theorem c7_witness :
    forecastStep fitOkConst [some 100] 5 =
      forecastStep fitOkConst [some 100] 5 :=
  c7_forecast_deterministic fitOkConst [some 100] 5 _ _ rfl rfl

/-- C8: Every model-fit call made by any run uses the fixed order
(5,0,0) — five autoregressive lags, no differencing, no moving-average
terms — and is fit on the closing-price column of the frame. -/
theorem c8_fixed_order (adf : List ℚ → Except String ℚ)
    (fitter : ARIMAModel → Except String FitResult)
    (ticker : String) (df : DataFrame) (n : ℕ)
    (endog : List PVal) (ord : ℕ × ℕ × ℕ)
    (hc : Call.fitCall endog ord ∈ (run adf fitter ticker df n).calls) :
    ord = (5, 0, 0) ∧ endog = df.close := by
  cases hdf : df.isEmptyDF with
  | true =>
      rw [run_empty_eq adf fitter ticker df n hdf] at hc
      simp at hc
  | false =>
      cases ha : adf (dropna df.close) with
      | error e =>
          rw [run_adf_error_eq adf fitter ticker df n e hdf ha] at hc
          simp at hc
      | ok p =>
          cases hf : fitter (ARIMA df.close (5, 0, 0)) with
          | error e =>
              rw [run_fit_error_eq adf fitter ticker df n p e hdf ha hf]
                at hc
              simp [-Prod.mk_zero_zero] at hc
              exact ⟨hc.2, hc.1⟩
          | ok mf =>
              rw [run_ok_eq adf fitter ticker df n p mf hdf ha hf] at hc
              simp [-Prod.mk_zero_zero] at hc
              exact ⟨hc.2, hc.1⟩

theorem c8_witness :
    ((5, 0, 0) : ℕ × ℕ × ℕ) = (5, 0, 0) ∧
    ([some 100, some 101] : List PVal) = dfTwo.close :=
  c8_fixed_order adfOkZero fitOkConst "T" dfTwo 10 [some 100, some 101]
    (5, 0, 0)
    (by
      rw [run_ok_eq adfOkZero fitOkConst "T" dfTwo 10 0
        ⟨1, [1, 0, 0, 0, 0], [100, 100, 100, 100, 100]⟩ rfl rfl rfl]
      exact List.Mem.tail _ (List.Mem.head _))

/-- C9 counterexample: a concrete run in which the model fit fails shows
partial-result degradation: the stationarity verdict (an `st.info`
output) was already presented although the run failed and no chart or
table was produced — exactly the partial output the claim rules out. -/
theorem c9_counterexample :
    run adfOkZero fitFail "PARTIAL" dfTwo 10 =
      { outputs := [Output.subheader stationarityHeader,
          Output.info stationaryMsg]
        calls := [Call.adfCall [100, 101],
          Call.fitCall [some 100, some 101] (5, 0, 0)]
        outcome := Except.error fitErr } ∧
    ((run adfOkZero fitFail "PARTIAL" dfTwo 10).outputs.all
      fun o => !(isChart o || isTable o)) = true := by
  have h := run_fit_error_eq adfOkZero fitFail "PARTIAL" dfTwo 10 0 fitErr
    rfl rfl rfl
  rw [h]
  refine ⟨?_, rfl⟩
  rw [if_pos (show (0 : ℚ) < 5/100 by norm_num)]
  rfl

/-- C9 amended: every error is terminal for the current run and the fit
is never retried, but outputs rendered before the failing step remain
presented: when the model fit fails, the stationarity verdict is among
the presented outputs even though no chart and no table is rendered. -/
theorem c9_terminal_partial_outputs (adf : List ℚ → Except String ℚ)
    (fitter : ARIMAModel → Except String FitResult)
    (ticker : String) (df : DataFrame) (n : ℕ) (p : ℚ) (e : String)
    (hne : df.isEmptyDF = false)
    (ha : adf (dropna df.close) = Except.ok p)
    (hf : fitter (ARIMA df.close (5, 0, 0)) = Except.error e) :
    (run adf fitter ticker df n).outcome = Except.error e ∧
    Output.info (if p < 5/100 then stationaryMsg else notStationaryMsg) ∈
      (run adf fitter ticker df n).outputs ∧
    countFitCalls (run adf fitter ticker df n).calls = 1 ∧
    ∀ o ∈ (run adf fitter ticker df n).outputs,
      isChart o = false ∧ isTable o = false := by
  rw [run_fit_error_eq adf fitter ticker df n p e hne ha hf]
  refine ⟨rfl, by simp, rfl, fun o ho => ?_⟩
  simp only [List.mem_cons, List.mem_singleton, List.not_mem_nil,
    or_false] at ho
  rcases ho with rfl | rfl <;> exact ⟨rfl, rfl⟩

theorem c9_amended_witness :
    (run adfOkZero fitFail "T9" dfTwo 9).outcome = Except.error fitErr ∧
    Output.info (if (0 : ℚ) < 5/100 then stationaryMsg
      else notStationaryMsg) ∈ (run adfOkZero fitFail "T9" dfTwo 9).outputs ∧
    countFitCalls (run adfOkZero fitFail "T9" dfTwo 9).calls = 1 ∧
    ∀ o ∈ (run adfOkZero fitFail "T9" dfTwo 9).outputs,
      isChart o = false ∧ isTable o = false :=
  c9_terminal_partial_outputs adfOkZero fitFail "T9" dfTwo 9 0 fitErr rfl
    rfl rfl

/-- C10: The forecast values depend only on the close column and the
horizon: two runs over well-formed frames with identical close columns
but arbitrary other dates, tickers and columns render identical forecast
values in their charts. -/
theorem c10_close_only_dependence (adf : List ℚ → Except String ℚ)
    (fitter : ARIMAModel → Except String FitResult)
    (t1 t2 : String) (df1 df2 : DataFrame) (n : ℕ)
    (hw1 : df1.dates.length = df1.close.length)
    (hw2 : df2.dates.length = df2.close.length)
    (hcl : df1.close = df2.close) :
    chartForecastVals (run adf fitter t1 df1 n).outputs =
      chartForecastVals (run adf fitter t2 df2 n).outputs := by
  have hlen : df1.dates.length = df2.dates.length := by
    have h := congrArg List.length hcl
    omega
  cases hdf1 : df1.isEmptyDF with
  | true =>
      have hdf2 : df2.isEmptyDF = true := by
        simp only [DataFrame.isEmptyDF, isEmpty_iff_length_zero] at hdf1 ⊢
        omega
      rw [run_empty_eq adf fitter t1 df1 n hdf1,
        run_empty_eq adf fitter t2 df2 n hdf2]
  | false =>
      have hdf2 : df2.isEmptyDF = false := by
        simp only [DataFrame.isEmptyDF] at hdf1 ⊢
        rw [Bool.eq_false_iff] at hdf1 ⊢
        simp only [ne_eq, isEmpty_iff_length_zero] at hdf1 ⊢
        omega
      cases ha : adf (dropna df1.close) with
      | error e =>
          have ha2 : adf (dropna df2.close) = Except.error e := by
            rw [← hcl]; exact ha
          rw [run_adf_error_eq adf fitter t1 df1 n e hdf1 ha,
            run_adf_error_eq adf fitter t2 df2 n e hdf2 ha2]
      | ok p =>
          have ha2 : adf (dropna df2.close) = Except.ok p := by
            rw [← hcl]; exact ha
          cases hf : fitter (ARIMA df1.close (5, 0, 0)) with
          | error e =>
              have hf2 : fitter (ARIMA df2.close (5, 0, 0)) =
                  Except.error e := by
                rw [← hcl]; exact hf
              rw [run_fit_error_eq adf fitter t1 df1 n p e hdf1 ha hf,
                run_fit_error_eq adf fitter t2 df2 n p e hdf2 ha2 hf2]
          | ok mf =>
              have hf2 : fitter (ARIMA df2.close (5, 0, 0)) =
                  Except.ok mf := by
                rw [← hcl]; exact hf
              rw [run_ok_eq adf fitter t1 df1 n p mf hdf1 ha hf,
                run_ok_eq adf fitter t2 df2 n p mf hdf2 ha2 hf2]
              rw [chartForecastVals_ok_outputs, chartForecastVals_ok_outputs]

theorem c10_witness :
    chartForecastVals (run adfOkZero fitOkConst "A" dfTwo 10).outputs =
      chartForecastVals
        (run adfOkZero fitOkConst "B" dfTwoAlt 10).outputs :=
  c10_close_only_dependence adfOkZero fitOkConst "A" "B" dfTwo dfTwoAlt 10
    rfl rfl rfl

end Arima
